import Mathlib

/-!
Verification development for the flux-data-monitoring job-record exporter
(src/src/cmd/flux-account-create-elastic-logs.py).

The script is a batch transform: it resolves a checkpoint timestamp, fetches
inactive jobs from the workload manager, maps each raw job dictionary into a
normalized output record, sorts the records by submit time and emits them.

Modelling conventions:
* Python values stored in job dictionaries are embedded as `JValue`
  (null / int / float / str / bool).  Floats are modelled as exact rationals.
* Python dictionaries are association lists (`Dict`) with insertion-order
  update semantics (`dset` updates an existing key in place, appends a new
  key at the end); `dget` is key lookup.  This keeps the distinction between
  a key that is absent and a key stored with value null.
* A raw job attribute that is absent or stored as None is modelled as
  `Option.none`: every access in the script goes through `job.get(...)`,
  which cannot distinguish the two.
* Python exceptions that the script can raise while mapping records are
  modelled with `Except PyErr`; `sys.exit` paths are modelled with `PyExit`.
-/

namespace FluxJobLog

/-- Embedded Python value as it appears in the job dictionaries. -/
inductive JValue where
  | null
  | i (n : Int)
  | q (x : ℚ)
  | s (t : String)
  | b (v : Bool)
deriving DecidableEq, Repr

/-- A Python dictionary with string keys, as an insertion-ordered association list. -/
abbrev Dict := List (String × JValue)

/-- Lookup of a key in a dictionary; `none` means the key is absent. -/
def dget : Dict → String → Option JValue
  | [], _ => none
  | (k0, v0) :: rest, k => if k0 = k then some v0 else dget rest k

/-- Assignment `d[k] = v` with Python dict semantics: an existing key is
updated in place, a new key is appended at the end. -/
def dset : Dict → String → JValue → Dict
  | [], k, v => [(k, v)]
  | (k0, v0) :: rest, k, v => if k0 = k then (k, v) :: rest else (k0, v0) :: dset rest k v

theorem dget_dset_self (d : Dict) (k : String) (v : JValue) :
    dget (dset d k v) k = some v := by
  induction d with
  | nil => simp [dset, dget]
  | cons hd rest ih =>
    obtain ⟨k0, v0⟩ := hd
    by_cases h : k0 = k
    · simp [dset, dget, h]
    · simp [dset, dget, h, ih]

theorem dget_dset_ne (d : Dict) (k k' : String) (v : JValue) (h : k ≠ k') :
    dget (dset d k v) k' = dget d k' := by
  induction d with
  | nil => simp [dset, dget, h]
  | cons hd rest ih =>
    obtain ⟨k0, v0⟩ := hd
    by_cases h0 : k0 = k
    · subst h0
      simp [dset, dget, h]
    · simp [dset, dget, h0, ih]

/-- Guarded update used to model source lines of the form
`if job.get(x) is not None: rec[...] = ...`. -/
def optUpd {α γ : Type _} (o : Option α) (st : γ) (f : α → γ → γ) : γ :=
  match o with
  | some a => f a st
  | none => st

/-- Guarded update used to model source lines of the form
`if job.get(x) is not None and job.get(y) is not None: ...`. -/
def optUpd2 {α β γ : Type _} (o1 : Option α) (o2 : Option β) (st : γ) (f : α → β → γ → γ) : γ :=
  match o1, o2 with
  | some a, some b => f a b st
  | _, _ => st

theorem dget_optUpd {α : Type _} (o : Option α) (d : Dict) (f : α → Dict → Dict) (k : String)
    (h : ∀ a d2, dget (f a d2) k = dget d2 k) : dget (optUpd o d f) k = dget d k := by
  cases o with
  | none => rfl
  | some a => exact h a d

theorem dget_optUpd2 {α β : Type _} (o1 : Option α) (o2 : Option β) (d : Dict)
    (f : α → β → Dict → Dict) (k : String)
    (h : ∀ a b d2, dget (f a b d2) k = dget d2 k) : dget (optUpd2 o1 o2 d f) k = dget d k := by
  cases o1 with
  | none => cases o2 <;> rfl
  | some a => cases o2 with
    | none => rfl
    | some b => exact h a b d

/-- Conversion of an optional raw attribute to the stored value: a missing
attribute is stored as Python None (source assigns `job.get(key)` directly). -/
def jvOf (o : Option JValue) : JValue := o.getD .null

/-- Stored value of an optional integer attribute. -/
def jvI : Option Int → JValue
  | some n => .i n
  | none => .null

/-- Stored value of an optional float attribute. -/
def jvQ : Option ℚ → JValue
  | some x => .q x
  | none => .null

/-- Stored value of an optional string attribute. -/
def jvS : Option String → JValue
  | some t => .s t
  | none => .null

/-- Banker's rounding (round half to even) of a rational to an integer: the
rounding rule used by Python's builtin round. -/
def roundHalfEven (x : ℚ) : ℤ :=
  if x - ⌊x⌋ < 1 / 2 then ⌊x⌋
  else if 1 / 2 < x - ⌊x⌋ then ⌊x⌋ + 1
  else if ⌊x⌋ % 2 = 0 then ⌊x⌋ else ⌊x⌋ + 1

/-- Model of Python's `round(x, 1)`: round to one decimal digit, half to even. -/
def pyRound1 (x : ℚ) : ℚ := (roundHalfEven (10 * x) : ℚ) / 10

/-- Timestamp formatting used by the source:
`datetime.datetime.fromtimestamp(t, tz=datetime.timezone.utc).isoformat()`.
That conversion is an injective presentation of the epoch value as an
ISO-8601 UTC string; the embedding keeps the epoch value itself. -/
def isoTS (t : ℚ) : JValue := .q t

/-- Source line 22: `OUTCOME_CONVERSION = {1: "COMPLETED", 2: "FAILED", 4: "CANCELLED", 8: "TIMEOUT"}`,
as dictionary lookup returning `none` (a KeyError) for any other key. -/
def OUTCOME_CONVERSION (r : Int) : Option String :=
  if r = 1 then some "COMPLETED"
  else if r = 2 then some "FAILED"
  else if r = 4 then some "CANCELLED"
  else if r = 8 then some "TIMEOUT"
  else none

/-- External environment of the script: the password database (uid to
(pw_name, pw_gid)), the group database (gid to group name), and the
queue-to-maximum-duration table built from the queue configuration
(the global `queue_timelimits`). -/
structure SysEnv where
  pwnam : Int → Option (String × Int)
  grnam : Int → Option String
  queue_timelimits : String → Option JValue

/-- Source lines 25-30: username of a uid, falling back to `str(uid)` when
the password-database lookup fails. -/
def get_username (env : SysEnv) (uid : Int) : String :=
  match env.pwnam uid with
  | some p => p.1
  | none => toString uid

/-- Source lines 33-38: primary group id of a uid, falling back to the empty
string when the password-database lookup fails (the fallback is a string
even though the success value is an integer). -/
def get_gid (env : SysEnv) (uid : Int) : JValue :=
  match env.pwnam uid with
  | some p => .i p.2
  | none => .s ""

/-- Source lines 41-46: group name of a gid, falling back to the empty string
when the lookup fails; a non-integer gid (such as the empty-string fallback
of `get_gid`) raises TypeError inside, which is caught and also yields the
empty string. -/
def get_groupname (env : SysEnv) (gid : JValue) : String :=
  match gid with
  | .i g => (env.grnam g).getD ""
  | _ => ""

/-- Raw job dictionary handed to `create_job_dicts`: the attributes returned
by the job-list query merged with the jobspec-derived attributes.  Fields are
`none` when the attribute is absent (or stored as None). -/
structure RawJob where
  id : Option JValue := none
  userid : Option Int := none
  name : Option JValue := none
  priority : Option JValue := none
  state : Option JValue := none
  bank : Option JValue := none
  queue : Option String := none
  project : Option JValue := none
  jobspec : Option JValue := none
  eventlog : Option JValue := none
  duration : Option JValue := none
  nodelist : Option JValue := none
  nnodes : Option Int := none
  ntasks : Option Int := none
  cwd : Option JValue := none
  urgency : Option JValue := none
  success : Option JValue := none
  waitstatus : Option JValue := none
  t_submit : Option ℚ := none
  t_run : Option ℚ := none
  t_inactive : Option ℚ := none
  t_cleanup : Option ℚ := none
  t_depend : Option ℚ := none
  expiration : Option ℚ := none
  result : Option Int := none
  exception_occurred : Option Bool := none
  exception_type : Option JValue := none
  exception_note : Option JValue := none
deriving Repr

/-- Normalized output record: the nested dictionaries built for each job
(`rec["event"]`, `rec["job"]`, `rec["job"]["node"]`, `rec["job"]["task"]`,
`rec["job"]["proc"]`, `rec["user"]`, `rec["group"]`, `rec["schema"]`). -/
structure OutputRec where
  event : Dict
  job : Dict
  node : Dict
  task : Dict
  proc : Dict
  user : Dict
  group : Dict
  schema : Dict
deriving DecidableEq, Repr

/-- Python exceptions the mapping code can raise. -/
inductive PyErr where
  | keyError
  | typeError
deriving DecidableEq, Repr

/-- Source lines 167: the event dictionary before outcome conversion. -/
def eventInit : Dict := dset [] "dataset" (.s "flux.joblog")

/-- Source lines 168-169: the schema dictionary. -/
def schemaDict : Dict := dset [] "version_number" (.q (11 / 5))

/-- Source lines 171, 185-186: the node dictionary (`list` initialized to -1,
then overwritten with the raw nodelist, then `count`). -/
def nodeDict (job : RawJob) : Dict :=
  dset (dset (dset [] "list" (.i (-1))) "list" (jvOf job.nodelist)) "count" (jvI job.nnodes)

/-- Source line 187: the task dictionary. -/
def taskDict (job : RawJob) : Dict :=
  dset [] "count" (jvI job.ntasks)

/-- Source lines 249-251: the proc dictionary; `count` is set only when both
`nnodes` and `ntasks` are present. -/
def procDict (job : RawJob) : Dict :=
  optUpd2 job.nnodes job.ntasks [] fun nn nt d => dset d "count" (.i (nn * nt))

/-- Source lines 175, 207-209: the user dictionary (`id` copied verbatim;
`name` resolved only when the user id is present). -/
def userDict (env : SysEnv) (job : RawJob) : Dict :=
  optUpd job.userid (dset [] "id" (jvI job.userid)) fun uid d =>
    dset d "name" (.s (get_username env uid))

/-- Source lines 207-211: the group dictionary, populated only when the user
id is present; the group name is resolved from the stored group id. -/
def groupDict (env : SysEnv) (job : RawJob) : Dict :=
  optUpd job.userid [] fun uid d =>
    let gid := get_gid env uid
    dset (dset d "id" gid) "name" (.s (get_groupname env gid))

/-- Source lines 174-195: the direct field copies into `rec["job"]`, in
source order (assignments are unconditional, so an absent attribute is
stored as null under the same key). -/
def baseJobDict (job : RawJob) : Dict :=
  let d : Dict := []
  let d := dset d "id" (jvOf job.id)
  let d := dset d "name" (jvOf job.name)
  let d := dset d "priority" (jvOf job.priority)
  let d := dset d "state" (jvOf job.state)
  let d := dset d "bank" (jvOf job.bank)
  let d := dset d "queue" (jvS job.queue)
  let d := dset d "project" (jvOf job.project)
  let d := dset d "jobspec" (jvOf job.jobspec)
  let d := dset d "eventlog" (jvOf job.eventlog)
  let d := dset d "requested_duration" (jvOf job.duration)
  let d := dset d "cwd" (jvOf job.cwd)
  let d := dset d "urgency" (jvOf job.urgency)
  let d := dset d "success" (jvOf job.success)
  let d := dset d "exit_code" (jvOf job.waitstatus)
  let d := dset d "t_submit" (jvQ job.t_submit)
  let d := dset d "t_run" (jvQ job.t_run)
  let d := dset d "t_inactive" (jvQ job.t_inactive)
  let d := dset d "t_cleanup" (jvQ job.t_cleanup)
  d

/-- Source lines 201-205: placement of the queue maximum time limit, only
when the job carries a queue; an unknown queue maps to "UNKNOWN". -/
def jobDictQueue (env : SysEnv) (job : RawJob) (d : Dict) : Dict :=
  optUpd job.queue d fun qn d2 =>
    dset d2 "queue_maxtimelimit" ((env.queue_timelimits qn).getD (.s "UNKNOWN"))

/-- Source lines 214-218: the raw submit epoch and its formatted form, only
when the submit timestamp is present. -/
def jobDictSubmit (job : RawJob) (d : Dict) : Dict :=
  optUpd job.t_submit d fun t d2 =>
    dset (dset d2 "submittime_epoch" (.q t)) "submittime" (isoTS t)

/-- Source lines 227-231: the time limit derived from the expiration
timestamp. -/
def jobDictTimelimit (job : RawJob) (d : Dict) : Dict :=
  optUpd job.expiration d fun t d2 => dset d2 "timelimit" (isoTS t)

/-- Source lines 233-240: the eligible time
`t_eligible = t_run - (t_run - t_depend)` and the queue wait
`round(t_run - t_eligible, 1)`, only when both `t_depend` and `t_run` are
present. -/
def jobDictEligible (job : RawJob) (d : Dict) : Dict :=
  optUpd2 job.t_depend job.t_run d fun td tr d2 =>
    let te := tr - (tr - td)
    dset (dset d2 "eligibletime" (isoTS te)) "queue_time" (.q (pyRound1 (tr - te)))

/-- Source lines 253-260: the exception fields, copied only when the
exception-occurred flag is exactly True. -/
def jobDictException (job : RawJob) (d : Dict) : Dict :=
  if job.exception_occurred = some true then
    let d2 := optUpd job.exception_type d fun v d3 => dset d3 "exception_type" v
    optUpd job.exception_note d2 fun v d3 => dset d3 "exception_note" v
  else d

/-- Source lines 201-263: the derived fields added to `rec["job"]` after the
direct copies: queue max time limit, submit-time pair, time limit, eligible
time and queue wait, exception fields, and the scheduler tag. -/
def jobDictFull (env : SysEnv) (job : RawJob) : Dict :=
  dset
    (jobDictException job
      (jobDictEligible job
        (jobDictTimelimit job
          (jobDictSubmit job
            (jobDictQueue env job (baseJobDict job))))))
    "scheduler" (.s "flux")

/-- Source lines 219-226 and 242-247: the derived fields added to
`rec["event"]` after outcome conversion: start, end, and the two execution
duration fields. -/
def eventDictFull (job : RawJob) (event : Dict) : Dict :=
  let e := optUpd job.t_run event fun t d => dset d "start" (isoTS t)
  let e := optUpd job.t_inactive e fun t d => dset d "end" (isoTS t)
  optUpd2 job.t_inactive job.t_run e fun ti tr d =>
    let ds := pyRound1 (ti - tr)
    dset (dset d "duration_seconds" (.q ds)) "duration" (.q (ds * 10 ^ 9))

/-- Assembly of the output record from its dictionaries, given the event
dictionary as it stands after outcome conversion. -/
def finishRec (env : SysEnv) (job : RawJob) (event : Dict) : OutputRec :=
  { event := eventDictFull job event
    job := jobDictFull env job
    node := nodeDict job
    task := taskDict job
    proc := procDict job
    user := userDict env job
    group := groupDict env job
    schema := schemaDict }

/-- Source lines 154-265: mapping of one raw job to one output record.  The
only exception the body can raise is the KeyError from
`OUTCOME_CONVERSION[job.get("result")]` on a result code outside the table
(source lines 197-199). -/
def create_job_dict (env : SysEnv) (job : RawJob) : Except PyErr OutputRec :=
  match job.result with
  | some r =>
    match OUTCOME_CONVERSION r with
    | some a => .ok (finishRec env job (dset eventInit "outcome" (.s a)))
    | none => .error .keyError
  | none => .ok (finishRec env job eventInit)

/-- Source line 272: the sort key of a record,
`x.get("job", {}).get("submittime_epoch", "0.0")` — note the default is the
STRING "0.0", while a present submit time is stored as a float. -/
def sortKey (r : OutputRec) : JValue :=
  (dget r.job "submittime_epoch").getD (.s "0.0")

/-- Model of the Python 3 comparison `a < b` on embedded values: numbers
(including booleans) compare numerically, strings compare lexicographically,
and any other mixture raises TypeError (`none`). -/
def pyLt : JValue → JValue → Option Bool
  | .i a, .i b => some (decide (a < b))
  | .i a, .q y => some (decide ((a : ℚ) < y))
  | .q x, .i b => some (decide (x < (b : ℚ)))
  | .q x, .q y => some (decide (x < y))
  | .b a, .b c => some (decide ((cond a 1 0 : Int) < cond c 1 0))
  | .b a, .i b => some (decide ((cond a 1 0 : Int) < b))
  | .i a, .b c => some (decide (a < (cond c 1 0 : Int)))
  | .b a, .q y => some (decide ((cond a 1 0 : ℚ) < y))
  | .q x, .b c => some (decide (x < (cond c 1 0 : ℚ)))
  | .s t, .s u => some (decide (t < u))
  | _, _ => none

/-- Comparison relation on records used by the sort, with the TypeError case
collapsed to false (it is only consulted on comparable keys). -/
def recLt (a b : OutputRec) : Bool :=
  (pyLt (sortKey a) (sortKey b)).getD false

/-- Pairwise comparability of a list of keys: exactly the condition under
which CPython's sorted completes without raising TypeError (a correct
comparison sort on a list holding an incomparable pair must attempt at least
one cross comparison). -/
def allComparable (ks : List JValue) : Bool :=
  ks.all fun a => ks.all fun b => (pyLt a b).isSome

/-- Insertion of an element after every already-placed element that is
strictly below it (stable position). -/
def insertStable {α : Type _} (lt : α → α → Bool) (x : α) : List α → List α
  | [] => [x]
  | y :: ys => if lt y x then y :: insertStable lt x ys else x :: y :: ys

/-- Stable ascending sort by a strict comparison, extensionally equal to
CPython's stable sort on any list whose keys are pairwise comparable. -/
def sortStable {α : Type _} (lt : α → α → Bool) : List α → List α
  | [] => []
  | x :: xs => insertStable lt x (sortStable lt xs)

/-- Source lines 270-273: `sorted(job_dicts, key=...)`.  CPython raises
TypeError when the keys mix floats (present submit times) with the string
default "0.0" (missing submit times); otherwise it returns the stable
ascending order. -/
def pySortRecs (l : List OutputRec) : Except PyErr (List OutputRec) :=
  if allComparable (l.map sortKey) then .ok (sortStable recLt l) else .error .typeError

/-- Source lines 154-265: the per-job loop, appending one record per job in
input order; an exception raised for any job propagates immediately and no
record list is produced. -/
def mapJobs (env : SysEnv) : List RawJob → Except PyErr (List OutputRec)
  | [] => .ok []
  | j :: rest =>
    match create_job_dict env j with
    | .ok rec =>
      match mapJobs env rest with
      | .ok recs => .ok (rec :: recs)
      | .error e => .error e
    | .error e => .error e

/-- Source lines 143-274: mapping of the whole batch.  The per-job loop
appends records in order; an exception from any job propagates out of the
function (no record is emitted), then the result is sorted. -/
def create_job_dicts (env : SysEnv) (jobs : List RawJob) : Except PyErr (List OutputRec) :=
  match mapJobs env jobs with
  | .ok recs => pySortRecs recs
  | .error e => .error e

/-- Digit-run scanner for the float grammar: consumes decimal digits with
single underscores allowed between digits (Python numeric-literal rule),
returning the accumulated value, the number of digits consumed, and the
rest of the input. -/
def digitsGo (acc : Nat) (n : Nat) : List Char → Nat × Nat × List Char
  | [] => (acc, n, [])
  | c :: rest =>
    if c.isDigit then digitsGo (acc * 10 + (c.toNat - 48)) (n + 1) rest
    else if c = '_' then
      match rest with
      | d :: rest2 =>
        if d.isDigit then digitsGo (acc * 10 + (d.toNat - 48)) (n + 1) rest2
        else (acc, n, c :: d :: rest2)
      | [] => (acc, n, [c])
    else (acc, n, c :: rest)

/-- Digit part of the float grammar: requires at least one leading digit. -/
def digitPart (cs : List Char) : Option (Nat × Nat × List Char) :=
  match cs with
  | c :: _ => if c.isDigit then some (digitsGo 0 0 cs) else none
  | [] => none

/-- Optional sign at the start of a numeric literal. -/
def parseSign : List Char → Int × List Char
  | '+' :: rest => (1, rest)
  | '-' :: rest => (-1, rest)
  | cs => (1, cs)

/-- Optional exponent part `(e|E) sign? digits` applied to a mantissa. -/
def parseExp (m : ℚ) (cs : List Char) : Option (ℚ × List Char) :=
  match cs with
  | c :: rest =>
    if c = 'e' ∨ c = 'E' then
      let se := parseSign rest
      match digitPart se.2 with
      | some (e, _, rest3) => some (m * (10 : ℚ) ^ (se.1 * (e : Int)), rest3)
      | none => none
    else some (m, cs)
  | [] => some (m, [])

/-- Unsigned float literal: `digits [. digits?] [exp]` or `. digits [exp]`. -/
def parseUnsigned (cs : List Char) : Option (ℚ × List Char) :=
  match cs with
  | '.' :: rest =>
    match digitPart rest with
    | some (f, nd, rest2) => parseExp ((f : ℚ) / 10 ^ nd) rest2
    | none => none
  | _ =>
    match digitPart cs with
    | some (ip, _, rest) =>
      match rest with
      | '.' :: rest2 =>
        match digitPart rest2 with
        | some (f, nd, rest3) => parseExp ((ip : ℚ) + (f : ℚ) / 10 ^ nd) rest3
        | none => parseExp (ip : ℚ) rest2
      | _ => parseExp (ip : ℚ) rest
    | none => none

/-- Model of Python's `float(s)` on an already-stripped string, restricted to
finite values: an optional sign followed by a decimal literal with optional
fraction and exponent; anything else fails with ValueError (`none`).  The
special literals inf/infinity/nan accepted by Python denote non-finite
values outside the rational model and are not produced by a timestamp
checkpoint. -/
def pyFloat (str : String) : Option ℚ :=
  let sc := parseSign str.toList
  match parseUnsigned sc.2 with
  | some (v, []) => some ((sc.1 : ℚ) * v)
  | _ => none

/-- Removal of leading characters of Python's whitespace set
(space, tab, newline, carriage return, vertical tab, form feed). -/
def dropLeadingWS : List Char → List Char
  | [] => []
  | c :: rest =>
    if c = ' ' ∨ c = '\t' ∨ c = '\n' ∨ c = '\r' ∨ c = '\x0b' ∨ c = '\x0c' then
      dropLeadingWS rest
    else c :: rest

/-- Model of Python's `str.strip()`: whitespace removed from both ends. -/
def pyStrip (s : String) : String :=
  ⟨(dropLeadingWS (dropLeadingWS s.toList).reverse).reverse⟩

/-- Modelled exit of the script through `sys.exit` after a syslog message. -/
structure PyExit where
  code : Nat
  log : String
deriving DecidableEq, Repr

/-- Source lines 77-94: resolution of the effective since-timestamp.  An
explicit command-line timestamp wins; otherwise the checkpoint file is read
(`none` models FileNotFoundError, treated as epoch 0), and content whose
stripped text does not parse as a float is a fatal error: syslog plus
`sys.exit(1)`. -/
def resolve_since (since : Option ℚ) (checkpoint : Option String) : Except PyExit ℚ :=
  match since with
  | some t => .ok t
  | none =>
    match checkpoint with
    | none => .ok 0
    | some content =>
      match pyFloat (pyStrip content) with
      | some t => .ok t
      | none => .error ⟨1, "could not extract timestamp from Flux job log file"⟩

/-- Modelled from the spec: the external inactive-job query
(`flux.job.job_list_inactive(handle, since=ts, max_entries=0)`) returns the
jobs whose completion time is at or after the given timestamp (spec section
4.2: completion time at least the checkpoint, unbounded count). -/
def job_list_inactive (alljobs : List RawJob) (since : ℚ) : List RawJob :=
  alljobs.filter fun j =>
    match j.t_inactive with
    | some t => decide (since ≤ t)
    | none => false

/-- Outcome of one run of the script. -/
inductive RunResult where
  | records (recs : List OutputRec)
  | exited (e : PyExit)
  | uncaught (e : PyErr)
deriving DecidableEq, Repr

/-- Source main flow (lines 283-312): resolve the since-timestamp, fetch the
inactive jobs, map the batch; a `sys.exit` during checkpoint resolution
produces no records, and an uncaught mapping exception terminates the run
with no records. -/
def run_model (env : SysEnv) (alljobs : List RawJob) (since : Option ℚ)
    (checkpoint : Option String) : RunResult :=
  match resolve_since since checkpoint with
  | .error e => .exited e
  | .ok ts =>
    match create_job_dicts env (job_list_inactive alljobs ts) with
    | .ok recs => .records recs
    | .error e => .uncaught e

/-- Environment with empty password, group, and queue tables, used for
concrete witnesses. -/
def env0 : SysEnv :=
  { pwnam := fun _ => none
    grnam := fun _ => none
    queue_timelimits := fun _ => none }

/-!
Helper lemmas about the record builders.
-/

/-- Reading any key other than the dataset tag from the initial event
dictionary. -/
theorem dget_eventInit_ne (k : String) (h : k ≠ "dataset") : dget eventInit k = none := by
  unfold eventInit
  rw [dget_dset_ne _ _ _ _ (Ne.symm h)]
  rfl

/-- Reduction of the single-job mapping when no result code is present. -/
theorem create_job_dict_result_none (env : SysEnv) (j : RawJob) (h : j.result = none) :
    create_job_dict env j = .ok (finishRec env j eventInit) := by
  unfold create_job_dict
  rw [h]

/-- Reduction of the single-job mapping when a result code is present. -/
theorem create_job_dict_result_some (env : SysEnv) (j : RawJob) (r : Int)
    (h : j.result = some r) :
    create_job_dict env j =
      (match OUTCOME_CONVERSION r with
        | some a => .ok (finishRec env j (dset eventInit "outcome" (.s a)))
        | none => .error .keyError) := by
  unfold create_job_dict
  rw [h]

theorem OUTCOME_CONVERSION_some (r : Int) (a : String) (h : OUTCOME_CONVERSION r = some a) :
    r = 1 ∨ r = 2 ∨ r = 4 ∨ r = 8 := by
  unfold OUTCOME_CONVERSION at h
  split_ifs at h with h1 h2 h3 h4
  · exact Or.inl h1
  · exact Or.inr (Or.inl h2)
  · exact Or.inr (Or.inr (Or.inl h3))
  · exact Or.inr (Or.inr (Or.inr h4))

theorem OUTCOME_CONVERSION_none (r : Int) (h1 : r ≠ 1) (h2 : r ≠ 2) (h4 : r ≠ 4)
    (h8 : r ≠ 8) : OUTCOME_CONVERSION r = none := by
  simp [OUTCOME_CONVERSION, h1, h2, h4, h8]

/-- Result codes for which the mapping of a single job succeeds. -/
def resultOK (j : RawJob) : Prop :=
  j.result = none ∨ j.result = some 1 ∨ j.result = some 2 ∨ j.result = some 4 ∨
    j.result = some 8

/-- Inversion of a successful single-job mapping: the record is an assembly
from some event dictionary that holds at most the dataset and outcome keys. -/
theorem create_job_dict_ok_elim (env : SysEnv) (j : RawJob) (rec : OutputRec)
    (h : create_job_dict env j = .ok rec) :
    ∃ ev, rec = finishRec env j ev ∧
      ∀ k, k ≠ "dataset" → k ≠ "outcome" → dget ev k = none := by
  rcases hr : j.result with _ | r
  · rw [create_job_dict_result_none env j hr] at h
    simp only [Except.ok.injEq] at h
    exact ⟨eventInit, h.symm, fun k hk _ => dget_eventInit_ne k hk⟩
  · rw [create_job_dict_result_some env j r hr] at h
    rcases ho : OUTCOME_CONVERSION r with _ | a
    · rw [ho] at h
      cases h
    · rw [ho] at h
      simp only [Except.ok.injEq] at h
      refine ⟨dset eventInit "outcome" (.s a), h.symm, fun k hk hko => ?_⟩
      rw [dget_dset_ne _ _ _ _ (Ne.symm hko)]
      exact dget_eventInit_ne k hk

/-- A successful mapping for every acceptable result code. -/
theorem create_job_dict_ok_of_resultOK (env : SysEnv) (j : RawJob) (h : resultOK j) :
    ∃ rec, create_job_dict env j = .ok rec := by
  rcases h with h | h | h | h | h
  · exact ⟨_, create_job_dict_result_none env j h⟩
  · exact ⟨finishRec env j (dset eventInit "outcome" (.s "COMPLETED")),
      by rw [create_job_dict_result_some env j 1 h]; rfl⟩
  · exact ⟨finishRec env j (dset eventInit "outcome" (.s "FAILED")),
      by rw [create_job_dict_result_some env j 2 h]; rfl⟩
  · exact ⟨finishRec env j (dset eventInit "outcome" (.s "CANCELLED")),
      by rw [create_job_dict_result_some env j 4 h]; rfl⟩
  · exact ⟨finishRec env j (dset eventInit "outcome" (.s "TIMEOUT")),
      by rw [create_job_dict_result_some env j 8 h]; rfl⟩

/-- Failure of the single-job mapping is exactly the KeyError of the outcome
table. -/
theorem create_job_dict_error_elim (env : SysEnv) (j : RawJob) (e : PyErr)
    (h : create_job_dict env j = .error e) : e = .keyError := by
  rcases hr : j.result with _ | r
  · rw [create_job_dict_result_none env j hr] at h
    cases h
  · rw [create_job_dict_result_some env j r hr] at h
    rcases ho : OUTCOME_CONVERSION r with _ | a
    · rw [ho] at h
      cases h
      rfl
    · rw [ho] at h
      cases h

/-- Reading a key untouched by the derived-event updates passes through to
the event dictionary as it stood after outcome conversion. -/
theorem dget_eventDictFull_ne (job : RawJob) (ev : Dict) (k : String)
    (h1 : k ≠ "start") (h2 : k ≠ "end") (h3 : k ≠ "duration_seconds")
    (h4 : k ≠ "duration") :
    dget (eventDictFull job ev) k = dget ev k := by
  simp only [eventDictFull]
  rw [dget_optUpd2 _ _ _ _ _ (fun a b d2 => by
        rw [dget_dset_ne _ _ _ _ (Ne.symm h4), dget_dset_ne _ _ _ _ (Ne.symm h3)]),
    dget_optUpd _ _ _ _ (fun a d2 => dget_dset_ne _ _ _ _ (Ne.symm h2)),
    dget_optUpd _ _ _ _ (fun a d2 => dget_dset_ne _ _ _ _ (Ne.symm h1))]

theorem dget_jobDictQueue_ne (env : SysEnv) (job : RawJob) (d : Dict) (k : String)
    (h : k ≠ "queue_maxtimelimit") : dget (jobDictQueue env job d) k = dget d k := by
  simp only [jobDictQueue]
  exact dget_optUpd _ _ _ _ fun a d2 => dget_dset_ne _ _ _ _ (Ne.symm h)

theorem dget_jobDictSubmit_ne (job : RawJob) (d : Dict) (k : String)
    (h1 : k ≠ "submittime_epoch") (h2 : k ≠ "submittime") :
    dget (jobDictSubmit job d) k = dget d k := by
  simp only [jobDictSubmit]
  exact dget_optUpd _ _ _ _ fun a d2 => by
    rw [dget_dset_ne _ _ _ _ (Ne.symm h2), dget_dset_ne _ _ _ _ (Ne.symm h1)]

theorem dget_jobDictTimelimit_ne (job : RawJob) (d : Dict) (k : String)
    (h : k ≠ "timelimit") : dget (jobDictTimelimit job d) k = dget d k := by
  simp only [jobDictTimelimit]
  exact dget_optUpd _ _ _ _ fun a d2 => dget_dset_ne _ _ _ _ (Ne.symm h)

theorem dget_jobDictEligible_ne (job : RawJob) (d : Dict) (k : String)
    (h1 : k ≠ "eligibletime") (h2 : k ≠ "queue_time") :
    dget (jobDictEligible job d) k = dget d k := by
  simp only [jobDictEligible]
  exact dget_optUpd2 _ _ _ _ _ fun a b d2 => by
    rw [dget_dset_ne _ _ _ _ (Ne.symm h2), dget_dset_ne _ _ _ _ (Ne.symm h1)]

theorem dget_jobDictException_ne (job : RawJob) (d : Dict) (k : String)
    (h1 : k ≠ "exception_type") (h2 : k ≠ "exception_note") :
    dget (jobDictException job d) k = dget d k := by
  unfold jobDictException
  split
  · rw [dget_optUpd _ _ _ _ (fun a d2 => dget_dset_ne _ _ _ _ (Ne.symm h2)),
      dget_optUpd _ _ _ _ (fun a d2 => dget_dset_ne _ _ _ _ (Ne.symm h1))]
  · rfl

set_option maxHeartbeats 2000000 in
/-- Explicit form of the direct-copy dictionary. -/
theorem baseJobDict_eq (job : RawJob) :
    baseJobDict job =
      [("id", jvOf job.id), ("name", jvOf job.name), ("priority", jvOf job.priority),
       ("state", jvOf job.state), ("bank", jvOf job.bank), ("queue", jvS job.queue),
       ("project", jvOf job.project), ("jobspec", jvOf job.jobspec),
       ("eventlog", jvOf job.eventlog), ("requested_duration", jvOf job.duration),
       ("cwd", jvOf job.cwd), ("urgency", jvOf job.urgency),
       ("success", jvOf job.success), ("exit_code", jvOf job.waitstatus),
       ("t_submit", jvQ job.t_submit), ("t_run", jvQ job.t_run),
       ("t_inactive", jvQ job.t_inactive), ("t_cleanup", jvQ job.t_cleanup)] := by
  rfl

/-- Reading a direct-copy key of the finished job dictionary reduces to the
direct-copy dictionary: none of the later derived-field updates touches it. -/
theorem dget_jobDictFull_base (env : SysEnv) (job : RawJob) (k : String)
    (h1 : k ≠ "queue_maxtimelimit") (h2 : k ≠ "submittime_epoch") (h3 : k ≠ "submittime")
    (h4 : k ≠ "timelimit") (h5 : k ≠ "eligibletime") (h6 : k ≠ "queue_time")
    (h7 : k ≠ "exception_type") (h8 : k ≠ "exception_note") (h9 : k ≠ "scheduler") :
    dget (jobDictFull env job) k = dget (baseJobDict job) k := by
  unfold jobDictFull
  rw [dget_dset_ne _ _ _ _ (Ne.symm h9), dget_jobDictException_ne _ _ _ h7 h8,
    dget_jobDictEligible_ne _ _ _ h5 h6, dget_jobDictTimelimit_ne _ _ _ h4,
    dget_jobDictSubmit_ne _ _ _ h2 h3, dget_jobDictQueue_ne _ _ _ _ h1]

/-- Values of the eligible-time pair when both source timestamps are
present. -/
theorem dget_jobDictFull_eligible (env : SysEnv) (job : RawJob) (td tr : ℚ)
    (hd : job.t_depend = some td) (hr : job.t_run = some tr) :
    dget (jobDictFull env job) "eligibletime" = some (isoTS (tr - (tr - td))) ∧
    dget (jobDictFull env job) "queue_time" =
      some (.q (pyRound1 (tr - (tr - (tr - td))))) := by
  constructor
  · unfold jobDictFull
    rw [dget_dset_ne _ "scheduler" "eligibletime" _ (by decide),
      dget_jobDictException_ne _ _ "eligibletime" (by decide) (by decide)]
    simp only [jobDictEligible, hd, hr, optUpd2]
    rw [dget_dset_ne _ "queue_time" "eligibletime" _ (by decide), dget_dset_self]
  · unfold jobDictFull
    rw [dget_dset_ne _ "scheduler" "queue_time" _ (by decide),
      dget_jobDictException_ne _ _ "queue_time" (by decide) (by decide)]
    simp only [jobDictEligible, hd, hr, optUpd2]
    rw [dget_dset_self]

/-- Successful outcome conversion for a known result code. -/
theorem create_job_dict_known (env : SysEnv) (j : RawJob) (r : Int) (a : String)
    (h : j.result = some r) (ho : OUTCOME_CONVERSION r = some a) :
    create_job_dict env j = .ok (finishRec env j (dset eventInit "outcome" (.s a))) := by
  rw [create_job_dict_result_some env j r h, ho]

/-- KeyError for a result code outside the outcome table. -/
theorem create_job_dict_unknown (env : SysEnv) (j : RawJob) (r : Int)
    (h : j.result = some r) (ho : OUTCOME_CONVERSION r = none) :
    create_job_dict env j = .error .keyError := by
  rw [create_job_dict_result_some env j r h, ho]

theorem optUpd2_none_left {α β γ : Type _} (o2 : Option β) (st : γ) (f : α → β → γ → γ) :
    optUpd2 (none : Option α) o2 st f = st := by
  cases o2 <;> rfl

theorem optUpd2_none_right {α β γ : Type _} (o1 : Option α) (st : γ) (f : α → β → γ → γ) :
    optUpd2 o1 (none : Option β) st f = st := by
  cases o1 <;> rfl

/-- Values of the two execution-duration fields when both timestamps are
present. -/
theorem dget_eventDictFull_duration (job : RawJob) (ev : Dict) (ti tr : ℚ)
    (hi : job.t_inactive = some ti) (hr : job.t_run = some tr) :
    dget (eventDictFull job ev) "duration_seconds" = some (.q (pyRound1 (ti - tr))) ∧
    dget (eventDictFull job ev) "duration" = some (.q (pyRound1 (ti - tr) * 10 ^ 9)) := by
  constructor
  · simp only [eventDictFull, hi, hr, optUpd, optUpd2]
    rw [dget_dset_ne _ "duration" "duration_seconds" _ (by decide), dget_dset_self]
  · simp only [eventDictFull, hi, hr, optUpd, optUpd2]
    rw [dget_dset_self]

/-- Reading a key other than start and end passes through the derived-event
updates when either duration timestamp is missing. -/
theorem dget_eventDictFull_nodur (job : RawJob) (ev : Dict) (k : String)
    (h : job.t_inactive = none ∨ job.t_run = none)
    (h1 : k ≠ "start") (h2 : k ≠ "end") :
    dget (eventDictFull job ev) k = dget ev k := by
  rcases h with h | h <;>
    simp only [eventDictFull, h, optUpd2_none_left, optUpd2_none_right] <;>
    rw [dget_optUpd _ _ _ _ (fun a d2 => dget_dset_ne _ _ _ _ (Ne.symm h2)),
      dget_optUpd _ _ _ _ (fun a d2 => dget_dset_ne _ _ _ _ (Ne.symm h1))]

/-- Value of the process count when node and task counts are present. -/
theorem dget_procDict_some (job : RawJob) (nn nt : Int)
    (h1 : job.nnodes = some nn) (h2 : job.ntasks = some nt) :
    dget (procDict job) "count" = some (.i (nn * nt)) := by
  simp only [procDict, h1, h2, optUpd2]
  exact dget_dset_self _ _ _

/-- Absence of the process count when either count is missing. -/
theorem dget_procDict_none (job : RawJob) (h : job.nnodes = none ∨ job.ntasks = none) :
    dget (procDict job) "count" = none := by
  rcases h with h | h <;> simp only [procDict, h, optUpd2_none_left, optUpd2_none_right] <;> rfl

/-- Resolved user name for a uid missing from the password database. -/
theorem dget_userDict_name_unknown (env : SysEnv) (job : RawJob) (uid : Int)
    (h1 : job.userid = some uid) (h2 : env.pwnam uid = none) :
    dget (userDict env job) "name" = some (.s (toString uid)) := by
  simp only [userDict, h1, optUpd, get_username, h2]
  exact dget_dset_self _ _ _

/-- Resolved group fields for a uid missing from the password database. -/
theorem dget_groupDict_unknown (env : SysEnv) (job : RawJob) (uid : Int)
    (h1 : job.userid = some uid) (h2 : env.pwnam uid = none) :
    dget (groupDict env job) "id" = some (.s "") ∧
    dget (groupDict env job) "name" = some (.s "") := by
  constructor
  · simp only [groupDict, h1, optUpd, get_gid, h2, get_groupname]
    rw [dget_dset_ne _ "name" "id" _ (by decide)]
    exact dget_dset_self _ _ _
  · simp only [groupDict, h1, optUpd, get_gid, h2, get_groupname]
    exact dget_dset_self _ _ _

/-- Propagation of a per-job KeyError through the batch loop. -/
theorem mapJobs_error (env : SysEnv) (jobs : List RawJob) (j : RawJob)
    (hmem : j ∈ jobs) (hj : create_job_dict env j = .error .keyError) :
    mapJobs env jobs = .error .keyError := by
  induction jobs with
  | nil => cases hmem
  | cons a l ih =>
    rcases List.mem_cons.mp hmem with rfl | hmem2
    · simp [mapJobs, hj]
    · rcases ha : create_job_dict env a with e | r
      · have he := create_job_dict_error_elim env a e ha
        subst he
        simp [mapJobs, ha]
      · simp [mapJobs, ha, ih hmem2]

/-!
Concrete inputs used by counterexamples and witnesses.
-/

/-- Job with dependency satisfied at 10 and run start at 30. -/
def jC1 : RawJob := { t_depend := some 10, t_run := some 30 }

/-- Job submitted at epoch 30. -/
def jC2a : RawJob := { t_submit := some 30 }

/-- Job submitted at epoch 10. -/
def jC2b : RawJob := { t_submit := some 10 }

/-- Job with no submit time. -/
def jC2c : RawJob := { }

/-- Job submitted at epoch 20. -/
def jC2d : RawJob := { t_submit := some 20 }

/-- Job with result code 2 (FAILED). -/
def jC3w : RawJob := { result := some 2 }

/-- Job carrying only an id; every other attribute is absent. -/
def jC4w : RawJob := { id := some (.i 42) }

/-- Job that ran from 5 to 15.5. -/
def jC5w : RawJob := { t_run := some 5, t_inactive := some (31 / 2) }

/-- Job with a run start but no end. -/
def jC5n : RawJob := { t_run := some 5 }

/-- Job with 3 nodes and 5 tasks. -/
def jC6w : RawJob := { nnodes := some 3, ntasks := some 5 }

/-- Job with a node count but no task count. -/
def jC6n : RawJob := { nnodes := some 3 }

/-- Job that completed at epoch 100. -/
def jC8w : RawJob := { t_inactive := some 100 }

/-- Job owned by an unknown uid. -/
def jC9w : RawJob := { userid := some 4242 }

/-- Job with a convertible result code. -/
def jC10g : RawJob := { result := some 1 }

/-- Job with result code 3, outside the outcome table. -/
def jC10b : RawJob := { result := some 3 }

/-!
Claim theorems.
-/

/-- C1, counterexample: the claim says eligible time equals t_run and
queue_time is always 0.  On the job with t_depend = 10 and t_run = 30 the
code stores eligible time 10 (the timestamp of t_depend, not of t_run = 30)
and queue_time 20, not 0: the expression t_run - (t_run - t_depend) cancels
to t_depend, not to t_run. -/
theorem C1_counterexample :
    Except.map (fun rec => (dget rec.job "eligibletime", dget rec.job "queue_time"))
        (create_job_dict env0 jC1) = .ok (some (isoTS 10), some (.q 20)) ∧
    jC1.t_depend = some 10 ∧ jC1.t_run = some 30 ∧
    isoTS (10 : ℚ) ≠ isoTS 30 ∧ JValue.q 20 ≠ JValue.q 0 := by
  refine ⟨?_, rfl, rfl, by decide, by decide⟩
  have hok : create_job_dict env0 jC1 = .ok (finishRec env0 jC1 eventInit) :=
    create_job_dict_result_none env0 jC1 rfl
  have h := dget_jobDictFull_eligible env0 jC1 10 30 rfl rfl
  rw [hok]
  simp only [Except.map]
  rw [show (finishRec env0 jC1 eventInit).job = jobDictFull env0 jC1 from rfl, h.1, h.2]
  norm_num [pyRound1, roundHalfEven]

/-- C1, amended: when both t_depend and t_run are present the mapping sets
eligible time to t_depend (the subtraction-then-readdition cancels to
t_depend), and queue_time equals round(t_run - t_depend, 1). -/
theorem C1_eligible_time (env : SysEnv) (j : RawJob) (td tr : ℚ)
    (hd : j.t_depend = some td) (hr : j.t_run = some tr) (rec : OutputRec)
    (h : create_job_dict env j = .ok rec) :
    dget rec.job "eligibletime" = some (isoTS td) ∧
    dget rec.job "queue_time" = some (.q (pyRound1 (tr - td))) := by
  obtain ⟨ev, hrec, -⟩ := create_job_dict_ok_elim env j rec h
  subst hrec
  have h2 := dget_jobDictFull_eligible env j td tr hd hr
  rw [show (finishRec env j ev).job = jobDictFull env j from rfl]
  constructor
  · rw [h2.1]
    have e1 : tr - (tr - td) = td := by ring
    rw [e1]
  · rw [h2.2]
    have e2 : tr - (tr - (tr - td)) = tr - td := by ring
    rw [e2]

/-- C1, witness: the amended claim evaluated on the job with t_depend = 10
and t_run = 30. -/
theorem C1_eligible_time_witness :
    jC1.t_depend = some 10 ∧ jC1.t_run = some 30 ∧
    Except.map (fun rec => (dget rec.job "eligibletime", dget rec.job "queue_time"))
        (create_job_dict env0 jC1)
      = .ok (some (isoTS 10), some (.q (pyRound1 (30 - 10)))) := by
  refine ⟨rfl, rfl, ?_⟩
  have hok : create_job_dict env0 jC1 = .ok (finishRec env0 jC1 eventInit) :=
    create_job_dict_result_none env0 jC1 rfl
  have h := C1_eligible_time env0 jC1 10 30 rfl rfl _ hok
  rw [hok]
  simp only [Except.map]
  rw [h.1, h.2]

set_option maxHeartbeats 4000000 in
/-- C2: on the submit times [30, 10, missing, 20] the sort raises TypeError
(the string default "0.0" is compared against float submit times), so the
claimed output order is never produced; with the missing-submit job removed
the records do come out ascending by submit epoch. -/
theorem C2_sort_failing_input :
    create_job_dicts env0 [jC2a, jC2b, jC2c, jC2d] = .error .typeError ∧
    Except.map (fun recs => recs.map sortKey) (create_job_dicts env0 [jC2a, jC2b, jC2d])
      = .ok [.q 10, .q 20, .q 30] := by
  constructor <;> rfl

/-- C3: result codes 1, 2, 4 and 8 map exactly to COMPLETED, FAILED,
CANCELLED and TIMEOUT; any other non-null result code makes the mapping
raise a KeyError instead of emitting a default; and an outcome is present in
a produced record only when the result code is one of those four. -/
theorem C3_outcome_mapping (env : SysEnv) (j : RawJob) :
    (∀ r, j.result = some r →
      ((r = 1 → Except.map (fun rec => dget rec.event "outcome") (create_job_dict env j)
          = .ok (some (.s "COMPLETED"))) ∧
       (r = 2 → Except.map (fun rec => dget rec.event "outcome") (create_job_dict env j)
          = .ok (some (.s "FAILED"))) ∧
       (r = 4 → Except.map (fun rec => dget rec.event "outcome") (create_job_dict env j)
          = .ok (some (.s "CANCELLED"))) ∧
       (r = 8 → Except.map (fun rec => dget rec.event "outcome") (create_job_dict env j)
          = .ok (some (.s "TIMEOUT"))) ∧
       (r ≠ 1 → r ≠ 2 → r ≠ 4 → r ≠ 8 →
          create_job_dict env j = .error .keyError))) ∧
    (∀ rec, create_job_dict env j = .ok rec → (dget rec.event "outcome").isSome →
      j.result = some 1 ∨ j.result = some 2 ∨ j.result = some 4 ∨ j.result = some 8) := by
  constructor
  · intro r hr
    refine ⟨?_, ?_, ?_, ?_, ?_⟩
    · intro h1
      subst h1
      rw [create_job_dict_known env j 1 "COMPLETED" hr rfl]
      simp only [Except.map]
      rw [show (finishRec env j (dset eventInit "outcome" (.s "COMPLETED"))).event
            = eventDictFull j (dset eventInit "outcome" (.s "COMPLETED")) from rfl,
        dget_eventDictFull_ne _ _ _ (by decide) (by decide) (by decide) (by decide),
        dget_dset_self]
    · intro h1
      subst h1
      rw [create_job_dict_known env j 2 "FAILED" hr rfl]
      simp only [Except.map]
      rw [show (finishRec env j (dset eventInit "outcome" (.s "FAILED"))).event
            = eventDictFull j (dset eventInit "outcome" (.s "FAILED")) from rfl,
        dget_eventDictFull_ne _ _ _ (by decide) (by decide) (by decide) (by decide),
        dget_dset_self]
    · intro h1
      subst h1
      rw [create_job_dict_known env j 4 "CANCELLED" hr rfl]
      simp only [Except.map]
      rw [show (finishRec env j (dset eventInit "outcome" (.s "CANCELLED"))).event
            = eventDictFull j (dset eventInit "outcome" (.s "CANCELLED")) from rfl,
        dget_eventDictFull_ne _ _ _ (by decide) (by decide) (by decide) (by decide),
        dget_dset_self]
    · intro h1
      subst h1
      rw [create_job_dict_known env j 8 "TIMEOUT" hr rfl]
      simp only [Except.map]
      rw [show (finishRec env j (dset eventInit "outcome" (.s "TIMEOUT"))).event
            = eventDictFull j (dset eventInit "outcome" (.s "TIMEOUT")) from rfl,
        dget_eventDictFull_ne _ _ _ (by decide) (by decide) (by decide) (by decide),
        dget_dset_self]
    · intro h1 h2 h4 h8
      exact create_job_dict_unknown env j r hr (OUTCOME_CONVERSION_none r h1 h2 h4 h8)
  · intro rec hok hsome
    rcases hr : j.result with _ | r
    · rw [create_job_dict_result_none env j hr] at hok
      simp only [Except.ok.injEq] at hok
      subst hok
      rw [show (finishRec env j eventInit).event = eventDictFull j eventInit from rfl,
        dget_eventDictFull_ne _ _ _ (by decide) (by decide) (by decide) (by decide),
        dget_eventInit_ne _ (by decide)] at hsome
      simp at hsome
    · rcases ho : OUTCOME_CONVERSION r with _ | a
      · rw [create_job_dict_unknown env j r hr ho] at hok
        cases hok
      · rcases OUTCOME_CONVERSION_some r a ho with h | h | h | h <;> subst h <;> simp [hr]

/-- C3, witness: the mapping evaluated on a job with result code 2. -/
theorem C3_outcome_mapping_witness :
    jC3w.result = some 2 ∧
    Except.map (fun rec => dget rec.event "outcome") (create_job_dict env0 jC3w)
      = .ok (some (.s "FAILED")) :=
  ⟨rfl, ((C3_outcome_mapping env0 jC3w).1 2 rfl).2.1 rfl⟩

set_option maxHeartbeats 1000000 in
/-- C4, counterexample: the claim says a direct-copy field is omitted from
the output record when the raw attribute is absent; on a job without a name
attribute the name key is still present in the output, holding null. -/
theorem C4_counterexample :
    jC4w.name = none ∧
    Except.map (fun rec => dget rec.job "name") (create_job_dict env0 jC4w)
      = .ok (some JValue.null) ∧
    (some JValue.null ≠ (none : Option JValue)) := by
  refine ⟨rfl, ?_, by decide⟩
  rfl

set_option maxHeartbeats 1000000 in
/-- C4, amended: every direct-copy field key is always present in the output
record; it holds the raw attribute value when the attribute is present and
null when the attribute is absent (the assignments are unconditional, so the
key is never omitted). -/
theorem C4_direct_copies (env : SysEnv) (j : RawJob) (rec : OutputRec)
    (h : create_job_dict env j = .ok rec) :
    dget rec.job "id" = some (jvOf j.id) ∧
    dget rec.user "id" = some (jvI j.userid) ∧
    dget rec.job "name" = some (jvOf j.name) ∧
    dget rec.job "priority" = some (jvOf j.priority) ∧
    dget rec.job "state" = some (jvOf j.state) ∧
    dget rec.job "bank" = some (jvOf j.bank) ∧
    dget rec.job "queue" = some (jvS j.queue) ∧
    dget rec.job "project" = some (jvOf j.project) ∧
    dget rec.job "jobspec" = some (jvOf j.jobspec) ∧
    dget rec.job "eventlog" = some (jvOf j.eventlog) ∧
    dget rec.job "requested_duration" = some (jvOf j.duration) ∧
    dget rec.node "list" = some (jvOf j.nodelist) ∧
    dget rec.node "count" = some (jvI j.nnodes) ∧
    dget rec.task "count" = some (jvI j.ntasks) ∧
    dget rec.job "cwd" = some (jvOf j.cwd) ∧
    dget rec.job "urgency" = some (jvOf j.urgency) ∧
    dget rec.job "success" = some (jvOf j.success) ∧
    dget rec.job "exit_code" = some (jvOf j.waitstatus) ∧
    dget rec.job "t_submit" = some (jvQ j.t_submit) ∧
    dget rec.job "t_run" = some (jvQ j.t_run) ∧
    dget rec.job "t_inactive" = some (jvQ j.t_inactive) ∧
    dget rec.job "t_cleanup" = some (jvQ j.t_cleanup) := by
  obtain ⟨ev, hrec, -⟩ := create_job_dict_ok_elim env j rec h
  subst hrec
  refine ⟨?_, ?_, ?_, ?_, ?_, ?_, ?_, ?_, ?_, ?_, ?_, ?_, ?_, ?_, ?_, ?_, ?_, ?_, ?_, ?_, ?_, ?_⟩
  · rw [show (finishRec env j ev).job = jobDictFull env j from rfl,
      dget_jobDictFull_base env j "id" (by decide) (by decide) (by decide) (by decide)
        (by decide) (by decide) (by decide) (by decide) (by decide),
      baseJobDict_eq]
    rfl
  · rw [show (finishRec env j ev).user = userDict env j from rfl]
    simp only [userDict]
    rw [dget_optUpd _ _ _ _ (fun a d2 => dget_dset_ne _ _ _ _ (by decide))]
    exact dget_dset_self _ _ _
  · rw [show (finishRec env j ev).job = jobDictFull env j from rfl,
      dget_jobDictFull_base env j "name" (by decide) (by decide) (by decide) (by decide)
        (by decide) (by decide) (by decide) (by decide) (by decide),
      baseJobDict_eq]
    rfl
  · rw [show (finishRec env j ev).job = jobDictFull env j from rfl,
      dget_jobDictFull_base env j "priority" (by decide) (by decide) (by decide) (by decide)
        (by decide) (by decide) (by decide) (by decide) (by decide),
      baseJobDict_eq]
    rfl
  · rw [show (finishRec env j ev).job = jobDictFull env j from rfl,
      dget_jobDictFull_base env j "state" (by decide) (by decide) (by decide) (by decide)
        (by decide) (by decide) (by decide) (by decide) (by decide),
      baseJobDict_eq]
    rfl
  · rw [show (finishRec env j ev).job = jobDictFull env j from rfl,
      dget_jobDictFull_base env j "bank" (by decide) (by decide) (by decide) (by decide)
        (by decide) (by decide) (by decide) (by decide) (by decide),
      baseJobDict_eq]
    rfl
  · rw [show (finishRec env j ev).job = jobDictFull env j from rfl,
      dget_jobDictFull_base env j "queue" (by decide) (by decide) (by decide) (by decide)
        (by decide) (by decide) (by decide) (by decide) (by decide),
      baseJobDict_eq]
    rfl
  · rw [show (finishRec env j ev).job = jobDictFull env j from rfl,
      dget_jobDictFull_base env j "project" (by decide) (by decide) (by decide) (by decide)
        (by decide) (by decide) (by decide) (by decide) (by decide),
      baseJobDict_eq]
    rfl
  · rw [show (finishRec env j ev).job = jobDictFull env j from rfl,
      dget_jobDictFull_base env j "jobspec" (by decide) (by decide) (by decide) (by decide)
        (by decide) (by decide) (by decide) (by decide) (by decide),
      baseJobDict_eq]
    rfl
  · rw [show (finishRec env j ev).job = jobDictFull env j from rfl,
      dget_jobDictFull_base env j "eventlog" (by decide) (by decide) (by decide) (by decide)
        (by decide) (by decide) (by decide) (by decide) (by decide),
      baseJobDict_eq]
    rfl
  · rw [show (finishRec env j ev).job = jobDictFull env j from rfl,
      dget_jobDictFull_base env j "requested_duration" (by decide) (by decide) (by decide) (by decide)
        (by decide) (by decide) (by decide) (by decide) (by decide),
      baseJobDict_eq]
    rfl
  · rw [show (finishRec env j ev).node = nodeDict j from rfl]
    simp only [nodeDict]
    rw [dget_dset_ne _ "count" "list" _ (by decide)]
    exact dget_dset_self _ _ _
  · rw [show (finishRec env j ev).node = nodeDict j from rfl]
    simp only [nodeDict]
    exact dget_dset_self _ _ _
  · rw [show (finishRec env j ev).task = taskDict j from rfl]
    simp only [taskDict]
    exact dget_dset_self _ _ _
  · rw [show (finishRec env j ev).job = jobDictFull env j from rfl,
      dget_jobDictFull_base env j "cwd" (by decide) (by decide) (by decide) (by decide)
        (by decide) (by decide) (by decide) (by decide) (by decide),
      baseJobDict_eq]
    rfl
  · rw [show (finishRec env j ev).job = jobDictFull env j from rfl,
      dget_jobDictFull_base env j "urgency" (by decide) (by decide) (by decide) (by decide)
        (by decide) (by decide) (by decide) (by decide) (by decide),
      baseJobDict_eq]
    rfl
  · rw [show (finishRec env j ev).job = jobDictFull env j from rfl,
      dget_jobDictFull_base env j "success" (by decide) (by decide) (by decide) (by decide)
        (by decide) (by decide) (by decide) (by decide) (by decide),
      baseJobDict_eq]
    rfl
  · rw [show (finishRec env j ev).job = jobDictFull env j from rfl,
      dget_jobDictFull_base env j "exit_code" (by decide) (by decide) (by decide) (by decide)
        (by decide) (by decide) (by decide) (by decide) (by decide),
      baseJobDict_eq]
    rfl
  · rw [show (finishRec env j ev).job = jobDictFull env j from rfl,
      dget_jobDictFull_base env j "t_submit" (by decide) (by decide) (by decide) (by decide)
        (by decide) (by decide) (by decide) (by decide) (by decide),
      baseJobDict_eq]
    rfl
  · rw [show (finishRec env j ev).job = jobDictFull env j from rfl,
      dget_jobDictFull_base env j "t_run" (by decide) (by decide) (by decide) (by decide)
        (by decide) (by decide) (by decide) (by decide) (by decide),
      baseJobDict_eq]
    rfl
  · rw [show (finishRec env j ev).job = jobDictFull env j from rfl,
      dget_jobDictFull_base env j "t_inactive" (by decide) (by decide) (by decide) (by decide)
        (by decide) (by decide) (by decide) (by decide) (by decide),
      baseJobDict_eq]
    rfl
  · rw [show (finishRec env j ev).job = jobDictFull env j from rfl,
      dget_jobDictFull_base env j "t_cleanup" (by decide) (by decide) (by decide) (by decide)
        (by decide) (by decide) (by decide) (by decide) (by decide),
      baseJobDict_eq]
    rfl

/-- C4, witness: the amended claim evaluated on a job carrying only an id. -/
theorem C4_direct_copies_witness :
    jC4w.id = some (.i 42) ∧ jC4w.name = none ∧ jC4w.userid = none ∧
    Except.map (fun rec => (dget rec.job "id", dget rec.job "name", dget rec.user "id"))
        (create_job_dict env0 jC4w) = .ok (some (.i 42), some .null, some .null) := by
  refine ⟨rfl, rfl, rfl, ?_⟩
  have hok : create_job_dict env0 jC4w = .ok (finishRec env0 jC4w eventInit) :=
    create_job_dict_result_none env0 jC4w rfl
  have h := C4_direct_copies env0 jC4w _ hok
  rw [hok]
  simp only [Except.map]
  rw [h.1, h.2.2.1, h.2.1]
  rfl

/-- C5: with both t_inactive and t_run present, duration_seconds equals
round(t_inactive - t_run, 1) and duration equals duration_seconds times
10^9; with either timestamp absent, neither key is present. -/
theorem C5_duration (env : SysEnv) (j : RawJob) :
    (∀ ti tr rec, j.t_inactive = some ti → j.t_run = some tr →
      create_job_dict env j = .ok rec →
      dget rec.event "duration_seconds" = some (.q (pyRound1 (ti - tr))) ∧
      dget rec.event "duration" = some (.q (pyRound1 (ti - tr) * 10 ^ 9))) ∧
    (∀ rec, (j.t_inactive = none ∨ j.t_run = none) →
      create_job_dict env j = .ok rec →
      dget rec.event "duration_seconds" = none ∧ dget rec.event "duration" = none) := by
  constructor
  · intro ti tr rec hi hr hok
    obtain ⟨ev, hrec, -⟩ := create_job_dict_ok_elim env j rec hok
    subst hrec
    rw [show (finishRec env j ev).event = eventDictFull j ev from rfl]
    exact dget_eventDictFull_duration j ev ti tr hi hr
  · intro rec hmiss hok
    obtain ⟨ev, hrec, hev⟩ := create_job_dict_ok_elim env j rec hok
    subst hrec
    rw [show (finishRec env j ev).event = eventDictFull j ev from rfl]
    constructor
    · rw [dget_eventDictFull_nodur j ev _ hmiss (by decide) (by decide)]
      exact hev _ (by decide) (by decide)
    · rw [dget_eventDictFull_nodur j ev _ hmiss (by decide) (by decide)]
      exact hev _ (by decide) (by decide)

/-- C5, witness: durations on a job that ran from 5 to 15.5, and their
absence on a job with no end timestamp. -/
theorem C5_duration_witness :
    jC5w.t_inactive = some (31 / 2) ∧ jC5w.t_run = some 5 ∧ jC5n.t_inactive = none ∧
    Except.map (fun rec => (dget rec.event "duration_seconds", dget rec.event "duration"))
        (create_job_dict env0 jC5w)
      = .ok (some (.q (pyRound1 (31 / 2 - 5))), some (.q (pyRound1 (31 / 2 - 5) * 10 ^ 9))) ∧
    Except.map (fun rec => (dget rec.event "duration_seconds", dget rec.event "duration"))
        (create_job_dict env0 jC5n) = .ok (none, none) := by
  refine ⟨rfl, rfl, rfl, ?_, ?_⟩
  · have hok : create_job_dict env0 jC5w = .ok (finishRec env0 jC5w eventInit) :=
      create_job_dict_result_none env0 jC5w rfl
    have h := (C5_duration env0 jC5w).1 (31 / 2) 5 _ rfl rfl hok
    rw [hok]
    simp only [Except.map]
    rw [h.1, h.2]
  · have hok : create_job_dict env0 jC5n = .ok (finishRec env0 jC5n eventInit) :=
      create_job_dict_result_none env0 jC5n rfl
    have h := (C5_duration env0 jC5n).2 _ (Or.inl rfl) hok
    rw [hok]
    simp only [Except.map]
    rw [h.1, h.2]

/-- C6: with both nnodes and ntasks present, job.proc.count equals their
product; with either absent, the key is absent. -/
theorem C6_proc_count (env : SysEnv) (j : RawJob) :
    (∀ nn nt rec, j.nnodes = some nn → j.ntasks = some nt →
      create_job_dict env j = .ok rec → dget rec.proc "count" = some (.i (nn * nt))) ∧
    (∀ rec, (j.nnodes = none ∨ j.ntasks = none) →
      create_job_dict env j = .ok rec → dget rec.proc "count" = none) := by
  constructor
  · intro nn nt rec h1 h2 hok
    obtain ⟨ev, hrec, -⟩ := create_job_dict_ok_elim env j rec hok
    subst hrec
    rw [show (finishRec env j ev).proc = procDict j from rfl]
    exact dget_procDict_some j nn nt h1 h2
  · intro rec hmiss hok
    obtain ⟨ev, hrec, -⟩ := create_job_dict_ok_elim env j rec hok
    subst hrec
    rw [show (finishRec env j ev).proc = procDict j from rfl]
    exact dget_procDict_none j hmiss

/-- C6, witness: the process count on a job with 3 nodes and 5 tasks, and
its absence on a job without a task count. -/
theorem C6_proc_count_witness :
    jC6w.nnodes = some 3 ∧ jC6w.ntasks = some 5 ∧ jC6n.ntasks = none ∧
    Except.map (fun rec => dget rec.proc "count") (create_job_dict env0 jC6w)
      = .ok (some (.i 15)) ∧
    Except.map (fun rec => dget rec.proc "count") (create_job_dict env0 jC6n)
      = .ok none := by
  refine ⟨rfl, rfl, rfl, ?_, ?_⟩
  · have hok : create_job_dict env0 jC6w = .ok (finishRec env0 jC6w eventInit) :=
      create_job_dict_result_none env0 jC6w rfl
    have h := (C6_proc_count env0 jC6w).1 3 5 _ rfl rfl hok
    rw [hok]
    simp only [Except.map]
    rw [h]
    rfl
  · have hok : create_job_dict env0 jC6n = .ok (finishRec env0 jC6n eventInit) :=
      create_job_dict_result_none env0 jC6n rfl
    have h := (C6_proc_count env0 jC6n).2 _ (Or.inr rfl) hok
    rw [hok]
    simp only [Except.map]
    rw [h]

/-- C7: if the checkpoint file exists but its stripped content does not
parse as a float, the run logs an error and exits with status 1, producing
no output records. -/
theorem C7_bad_checkpoint (env : SysEnv) (alljobs : List RawJob) (content : String)
    (h : pyFloat (pyStrip content) = none) :
    run_model env alljobs none (some content)
      = .exited ⟨1, "could not extract timestamp from Flux job log file"⟩ := by
  simp [run_model, resolve_since, h]

/-- C7, witness: the run evaluated with checkpoint content "not-a-number". -/
theorem C7_bad_checkpoint_witness :
    pyFloat (pyStrip "not-a-number") = none ∧
    run_model env0 [] none (some "not-a-number")
      = .exited ⟨1, "could not extract timestamp from Flux job log file"⟩ := by
  have h : pyFloat (pyStrip "not-a-number") = none := by rfl
  exact ⟨h, C7_bad_checkpoint env0 [] "not-a-number" h⟩

/-- C8: with no explicit since-timestamp and no checkpoint file, the
effective since-timestamp is 0.0, and the inactive-job query with that
timestamp returns every historical job. -/
theorem C8_missing_checkpoint (alljobs : List RawJob)
    (h : ∀ j ∈ alljobs, ∃ t, j.t_inactive = some t ∧ 0 ≤ t) :
    resolve_since none none = .ok 0 ∧ job_list_inactive alljobs 0 = alljobs := by
  refine ⟨rfl, ?_⟩
  unfold job_list_inactive
  apply List.filter_eq_self.mpr
  intro j hj
  obtain ⟨t, ht, h0⟩ := h j hj
  simp only [ht]
  exact decide_eq_true h0

/-- C8, witness: the resolution and the query evaluated on one job that
completed at epoch 100. -/
theorem C8_missing_checkpoint_witness :
    resolve_since none none = .ok 0 ∧ job_list_inactive [jC8w] 0 = [jC8w] :=
  C8_missing_checkpoint [jC8w] (by
    intro j hj
    rw [List.mem_singleton] at hj
    subst hj
    exact ⟨100, rfl, by norm_num⟩)

/-- C9: for a present numeric user id whose password-database lookup fails,
the record still comes out (the lookup failure is not fatal) with user.name
equal to str(uid), group.id the empty string and group.name the empty
string. -/
theorem C9_identity_fallback (env : SysEnv) (j : RawJob) (uid : Int)
    (h1 : j.userid = some uid) (h2 : env.pwnam uid = none) (h3 : resultOK j) :
    ∃ rec, create_job_dict env j = .ok rec ∧
      dget rec.user "name" = some (.s (toString uid)) ∧
      dget rec.group "id" = some (.s "") ∧
      dget rec.group "name" = some (.s "") := by
  obtain ⟨rec, hok⟩ := create_job_dict_ok_of_resultOK env j h3
  obtain ⟨ev, hrec, -⟩ := create_job_dict_ok_elim env j rec hok
  subst hrec
  refine ⟨_, hok, ?_, ?_, ?_⟩
  · rw [show (finishRec env j ev).user = userDict env j from rfl]
    exact dget_userDict_name_unknown env j uid h1 h2
  · rw [show (finishRec env j ev).group = groupDict env j from rfl]
    exact (dget_groupDict_unknown env j uid h1 h2).1
  · rw [show (finishRec env j ev).group = groupDict env j from rfl]
    exact (dget_groupDict_unknown env j uid h1 h2).2

/-- C9, witness: the fallback identity fields on a job owned by uid 4242,
which the empty environment cannot resolve. -/
theorem C9_identity_fallback_witness :
    jC9w.userid = some 4242 ∧ env0.pwnam 4242 = none ∧
    Except.map (fun rec => (dget rec.user "name", dget rec.group "id", dget rec.group "name"))
        (create_job_dict env0 jC9w)
      = .ok (some (.s "4242"), some (.s ""), some (.s "")) := by
  refine ⟨rfl, rfl, ?_⟩
  obtain ⟨rec, hok, hn, hg, hgn⟩ :=
    C9_identity_fallback env0 jC9w 4242 rfl rfl (Or.inl rfl)
  rw [hok]
  simp only [Except.map]
  rw [hn, hg, hgn]
  rfl

/-- C10: one job with a non-null result code outside the outcome table
aborts the whole batch: create_job_dicts propagates the KeyError and
produces no record for any job. -/
theorem C10_batch_abort (env : SysEnv) (jobs : List RawJob) (j : RawJob) (r : Int)
    (hmem : j ∈ jobs) (hr : j.result = some r)
    (h1 : r ≠ 1) (h2 : r ≠ 2) (h4 : r ≠ 4) (h8 : r ≠ 8) :
    create_job_dicts env jobs = .error .keyError := by
  have hj : create_job_dict env j = .error .keyError :=
    create_job_dict_unknown env j r hr (OUTCOME_CONVERSION_none r h1 h2 h4 h8)
  have hm := mapJobs_error env jobs j hmem hj
  simp [create_job_dicts, hm]

/-- C10, witness: a batch of one convertible job and one job with result
code 3 produces no records at all. -/
theorem C10_batch_abort_witness :
    jC10b ∈ [jC10g, jC10b] ∧ jC10b.result = some 3 ∧
    create_job_dicts env0 [jC10g, jC10b] = .error .keyError := by
  refine ⟨by simp, rfl, ?_⟩
  exact C10_batch_abort env0 [jC10g, jC10b] jC10b 3 (by simp) rfl
    (by decide) (by decide) (by decide) (by decide)

end FluxJobLog
